import Mathlib

/-!
Shallow embedding of `src/anomaly_detector.py` (class `ZScoreAnomalyDetector`)
from the Cobblestone data-stream anomaly-detection repository, together with
theorems settling the specification claims about it.

Python floats are modelled as real numbers (ideal arithmetic, no rounding).
A second model (`ERe`, `detectE`) extends the reals with the IEEE special
values NaN and plus/minus Infinity in order to settle the claim about
non-finite inputs.
-/

namespace AnomalyDetection

/-- State of a `ZScoreAnomalyDetector` instance: the two constructor
parameters stored on `self`, plus the rolling window `self.data_window`
(a `collections.deque` with maxlen `window_size`, modelled as a list,
oldest element first). -/
structure ZScoreAnomalyDetector where
  window_size : ℕ
  threshold : ℝ
  data_window : List ℝ

namespace ZScoreAnomalyDetector

/-- One `append` on a `collections.deque` whose maxlen is `maxlen`: the new
element is added on the right and elements are discarded from the left so
that at most `maxlen` elements remain.  (When the deque already holds
`maxlen` elements this drops exactly the oldest one; during warm-up it
drops nothing; with maxlen `0` the deque stays empty.) -/
def dequeAppend (maxlen : ℕ) (w : List ℝ) (x : ℝ) : List ℝ :=
  (w ++ [x]).drop (w.length + 1 - maxlen)

/-- `np.mean(self.data_window)`: arithmetic mean (sum divided by length). -/
noncomputable def npMean (w : List ℝ) : ℝ := w.sum / w.length

/-- `np.std(self.data_window)`: population standard deviation — the square
root of the mean of the squared deviations from the mean (divisor equal to
the number of elements, ddof 0, numpy's default). -/
noncomputable def npStd (w : List ℝ) : ℝ :=
  Real.sqrt ((w.map fun v => (v - npMean w) ^ 2).sum / w.length)

open Classical in
/-- `ZScoreAnomalyDetector.detect(self, new_value)`: appends `new_value` to
the rolling window, returns `False` during warm-up (window not yet full) and
when the window's standard deviation is zero, and otherwise returns whether
the absolute z-score of `new_value` exceeds the threshold.  The returned pair
is (Python return value, updated detector state). -/
noncomputable def detect (d : ZScoreAnomalyDetector) (new_value : ℝ) :
    Bool × ZScoreAnomalyDetector :=
  let w := dequeAppend d.window_size d.data_window new_value
  let d' : ZScoreAnomalyDetector := { d with data_window := w }
  if w.length < d.window_size then (false, d')
  else
    let mean := npMean w
    let std_dev := npStd w
    if std_dev = 0 then (false, d')
    else
      let z_score := (new_value - mean) / std_dev
      (decide (|z_score| > d.threshold), d')

/-- Errors that construction could raise.  `invalidConfig` is the error the
specification postulates for bad parameters; `valueError` is Python's
`ValueError`, which `collections.deque` raises for a negative maxlen. -/
inductive InitError where
  | invalidConfig
  | valueError

/-- `ZScoreAnomalyDetector.__init__(self, window_size, threshold)`: stores
the two parameters unchanged and creates an empty deque whose maxlen is
`window_size`.  The body performs no validation of its own; the only failure
Python can raise here is `deque`'s `ValueError` for a negative maxlen. -/
def init (window_size : ℤ) (threshold : ℝ) :
    Except InitError ZScoreAnomalyDetector :=
  if window_size < 0 then .error .valueError
  else .ok ⟨window_size.toNat, threshold, []⟩

/-- Sequential calls of `detect` over a list of samples, returning the list
of boolean classifications in call order together with the final state. -/
noncomputable def runDetect :
    ZScoreAnomalyDetector → List ℝ → List Bool × ZScoreAnomalyDetector
  | d, [] => ([], d)
  | d, x :: xs =>
    let r := detect d x
    let rest := runDetect r.2 xs
    (r.1 :: rest.1, rest.2)

end ZScoreAnomalyDetector

/-!
### Extended model with IEEE special values

`detect` above models Python floats as ideal real numbers.  To settle the
claim about non-finite inputs we refine the value domain to the reals
extended with NaN and the two infinities, with the elementwise operations
following IEEE-754 / numpy semantics (rounding is still not modelled — it is
irrelevant to fault-freedom).  The one operation modelled as able to fault is
division with a finite zero divisor, the conservative reading of the
division guarded by the `std_dev == 0` check in `detect`; numpy itself would
only emit a warning there, so fault-freedom of this model implies
fault-freedom of the code.
-/

/-- A floating-point datum: a finite real number, one of the two infinities,
or NaN. -/
inductive ERe where
  | fin : ℝ → ERe
  | pinf
  | ninf
  | nan

/-- The only fault `detect` could conceivably raise: a division whose
divisor is finite zero. -/
inductive PyFault where
  | zeroDivisionError

/-- IEEE addition on extended values (used for numpy's summations). -/
noncomputable def addE : ERe → ERe → ERe
  | .fin a, .fin b => .fin (a + b)
  | .fin _, .pinf => .pinf
  | .fin _, .ninf => .ninf
  | .pinf, .fin _ => .pinf
  | .ninf, .fin _ => .ninf
  | .pinf, .pinf => .pinf
  | .ninf, .ninf => .ninf
  | .pinf, .ninf => .nan
  | .ninf, .pinf => .nan
  | .nan, _ => .nan
  | _, .nan => .nan

/-- IEEE subtraction on extended values. -/
noncomputable def subE : ERe → ERe → ERe
  | .fin a, .fin b => .fin (a - b)
  | .fin _, .pinf => .ninf
  | .fin _, .ninf => .pinf
  | .pinf, .fin _ => .pinf
  | .ninf, .fin _ => .ninf
  | .pinf, .pinf => .nan
  | .ninf, .ninf => .nan
  | .pinf, .ninf => .pinf
  | .ninf, .pinf => .ninf
  | .nan, _ => .nan
  | _, .nan => .nan

/-- IEEE squaring on extended values (numpy's elementwise square). -/
noncomputable def sqE : ERe → ERe
  | .fin a => .fin (a ^ 2)
  | .pinf => .pinf
  | .ninf => .pinf
  | .nan => .nan

/-- IEEE absolute value on extended values. -/
noncomputable def absE : ERe → ERe
  | .fin a => .fin |a|
  | .pinf => .pinf
  | .ninf => .pinf
  | .nan => .nan

open Classical in
/-- IEEE square root on extended values (numpy: NaN for negative input,
positive infinity maps to itself). -/
noncomputable def sqrtE : ERe → ERe
  | .fin a => if a < 0 then .nan else .fin (Real.sqrt a)
  | .pinf => .pinf
  | .ninf => .nan
  | .nan => .nan

open Classical in
/-- Division on extended values, modelled as faulting exactly when the
divisor is a finite zero; everything else follows IEEE semantics (division
by an infinity gives zero, NaN is absorbing, infinity over infinity is
NaN). -/
noncomputable def divE : ERe → ERe → Except PyFault ERe
  | x, .fin b =>
    if b = 0 then .error .zeroDivisionError
    else
      match x with
      | .fin a => .ok (.fin (a / b))
      | .pinf => .ok (if 0 < b then .pinf else .ninf)
      | .ninf => .ok (if 0 < b then .ninf else .pinf)
      | .nan => .ok .nan
  | .nan, _ => .ok .nan
  | .fin _, .pinf => .ok (.fin 0)
  | .fin _, .ninf => .ok (.fin 0)
  | .pinf, .pinf => .ok .nan
  | .pinf, .ninf => .ok .nan
  | .ninf, .pinf => .ok .nan
  | .ninf, .ninf => .ok .nan
  | .fin _, .nan => .ok .nan
  | .pinf, .nan => .ok .nan
  | .ninf, .nan => .ok .nan

open Classical in
/-- The IEEE comparison `v == 0` used by the zero-variance guard: false for
NaN and the infinities, true exactly for finite zero. -/
noncomputable def beqZeroE : ERe → Bool
  | .fin a => decide (a = 0)
  | _ => false

open Classical in
/-- The IEEE comparison `v > t` against a finite threshold: false whenever
`v` is NaN, true for positive infinity. -/
noncomputable def gtE : ERe → ℝ → Bool
  | .fin a, t => decide (a > t)
  | .pinf, _ => true
  | .ninf, _ => false
  | .nan, _ => false

/-- Division of a numpy reduction result by the (positive) element count, as
performed inside `np.mean` and `np.std`; never faults. -/
noncomputable def divByCountE (x : ERe) (n : ℕ) : ERe :=
  match x with
  | .fin a => .fin (a / n)
  | .pinf => .pinf
  | .ninf => .ninf
  | .nan => .nan

/-- `np.mean` on extended values: NaN on an empty array (numpy warns but
does not raise), otherwise the sum divided by the count. -/
noncomputable def npMeanE (w : List ERe) : ERe :=
  if w.length = 0 then .nan
  else divByCountE (w.foldl addE (.fin 0)) w.length

/-- `np.std` on extended values: NaN on an empty array, otherwise the square
root of the mean of the squared deviations from the mean. -/
noncomputable def npStdE (w : List ERe) : ERe :=
  if w.length = 0 then .nan
  else
    sqrtE (divByCountE
      ((w.map fun v => sqE (subE v (npMeanE w))).foldl addE (.fin 0))
      w.length)

/-- Detector state over extended values. -/
structure DetectorE where
  window_size : ℕ
  threshold : ℝ
  data_window : List ERe

/-- Deque append with eviction, over extended values. -/
noncomputable def dequeAppendE (maxlen : ℕ) (w : List ERe) (x : ERe) :
    List ERe :=
  (w ++ [x]).drop (w.length + 1 - maxlen)

/-- `ZScoreAnomalyDetector.detect` over the extended value domain; returns a
fault or the boolean classification plus the updated state. -/
noncomputable def detectE (d : DetectorE) (new_value : ERe) :
    Except PyFault (Bool × DetectorE) :=
  let w := dequeAppendE d.window_size d.data_window new_value
  let d' : DetectorE := { d with data_window := w }
  if w.length < d.window_size then .ok (false, d')
  else
    let mean := npMeanE w
    let std_dev := npStdE w
    if beqZeroE std_dev then .ok (false, d')
    else
      match divE (subE new_value mean) std_dev with
      | .error e => .error e
      | .ok z_score => .ok (gtE (absE z_score) d.threshold, d')

namespace ZScoreAnomalyDetector

/-! ### Structural lemmas about `detect` and `runDetect` -/

theorem detect_snd (d : ZScoreAnomalyDetector) (x : ℝ) :
    (detect d x).2 =
      { d with data_window := dequeAppend d.window_size d.data_window x } := by
  unfold detect
  dsimp only
  split <;> first | rfl | (split <;> rfl)

theorem detect_fst_warmup (d : ZScoreAnomalyDetector) (x : ℝ)
    (h : (dequeAppend d.window_size d.data_window x).length < d.window_size) :
    (detect d x).1 = false := by
  unfold detect
  dsimp only
  rw [if_pos h]

theorem detect_fst_zero_std (d : ZScoreAnomalyDetector) (x : ℝ)
    (h : ¬ (dequeAppend d.window_size d.data_window x).length < d.window_size)
    (h0 : npStd (dequeAppend d.window_size d.data_window x) = 0) :
    (detect d x).1 = false := by
  unfold detect
  dsimp only
  rw [if_neg h, if_pos h0]

open Classical in
theorem detect_fst_live (d : ZScoreAnomalyDetector) (x : ℝ)
    (h : ¬ (dequeAppend d.window_size d.data_window x).length < d.window_size)
    (h0 : npStd (dequeAppend d.window_size d.data_window x) ≠ 0) :
    (detect d x).1 =
      decide (|(x - npMean (dequeAppend d.window_size d.data_window x)) /
        npStd (dequeAppend d.window_size d.data_window x)| > d.threshold) := by
  unfold detect
  dsimp only
  rw [if_neg h, if_neg h0]

theorem runDetect_nil (d : ZScoreAnomalyDetector) : runDetect d [] = ([], d) :=
  rfl

theorem runDetect_cons (d : ZScoreAnomalyDetector) (x : ℝ) (xs : List ℝ) :
    runDetect d (x :: xs) =
      ((detect d x).1 :: (runDetect (detect d x).2 xs).1,
        (runDetect (detect d x).2 xs).2) :=
  rfl

theorem dequeAppend_length (m : ℕ) (w : List ℝ) (x : ℝ) :
    (dequeAppend m w x).length = min (w.length + 1) m := by
  unfold dequeAppend
  rw [List.length_drop]
  simp only [List.length_append, List.length_singleton]
  omega

/-- Folding deque appends over a stream keeps exactly the most recent
`maxlen` elements, in arrival order. -/
theorem foldl_dequeAppend (m : ℕ) (xs : List ℝ) :
    ∀ w : List ℝ, w.length ≤ m →
      List.foldl (dequeAppend m) w xs =
        (w ++ xs).drop (w.length + xs.length - m) := by
  induction xs with
  | nil =>
    intro w hw
    simp only [List.foldl_nil, List.length_nil, List.append_nil]
    rw [show w.length + 0 - m = 0 by omega, List.drop_zero]
  | cons x rest ih =>
    intro w hw
    rw [List.foldl_cons,
      ih (dequeAppend m w x) (by rw [dequeAppend_length]; omega)]
    have key : List.drop (w.length + 1 - m) (w ++ [x]) ++ rest
        = List.drop (w.length + 1 - m) (w ++ x :: rest) := by
      rw [← List.drop_append_of_le_length
          (by simp only [List.length_append, List.length_singleton]; omega),
        List.append_assoc, List.singleton_append]
    rw [dequeAppend_length]
    unfold dequeAppend
    rw [key, List.drop_drop, List.length_cons]
    congr 1
    omega

theorem runDetect_snd (d : ZScoreAnomalyDetector) (xs : List ℝ) :
    (runDetect d xs).2 =
      ⟨d.window_size, d.threshold,
        List.foldl (dequeAppend d.window_size) d.data_window xs⟩ := by
  induction xs generalizing d with
  | nil => rfl
  | cons x rest ih =>
    rw [runDetect_cons]
    dsimp only
    rw [detect_snd, ih]
    rfl

/-! ### Evaluation lemmas for concrete windows -/

theorem npStd_replicate (n : ℕ) (c : ℝ) : npStd (List.replicate n c) = 0 := by
  rcases Nat.eq_zero_or_pos n with h | h
  · subst h
    unfold npStd
    simp
  · unfold npStd npMean
    rw [List.sum_replicate, List.length_replicate, nsmul_eq_mul,
      mul_div_cancel_left₀ _ (by exact_mod_cast Nat.pos_iff_ne_zero.mp h),
      List.map_replicate]
    simp

theorem npMean_spike : npMean [1, 1, 1, 1, (10 : ℝ)] = 14 / 5 := by
  unfold npMean
  norm_num [List.sum_cons, List.sum_nil]

theorem npStd_spike : npStd [1, 1, 1, 1, (10 : ℝ)] = 18 / 5 := by
  unfold npStd
  rw [npMean_spike,
    show (([1, 1, 1, 1, (10 : ℝ)].map fun v => (v - 14 / 5) ^ 2).sum /
        ([1, 1, 1, 1, (10 : ℝ)].length) : ℝ) = (18 / 5) ^ 2 by
      norm_num [List.map_cons, List.sum_cons, List.sum_nil]]
  exact Real.sqrt_sq (by norm_num)

/-! ### Run-level helper lemmas -/

/-- During warm-up (window still short of capacity after all the appends),
every call returns `False`. -/
theorem runDetect_fst_warmup (xs : List ℝ) :
    ∀ d : ZScoreAnomalyDetector,
      d.data_window.length + xs.length < d.window_size →
        (runDetect d xs).1 = List.replicate xs.length false := by
  induction xs with
  | nil => intro d _; rfl
  | cons x rest ih =>
    intro d h
    rw [List.length_cons] at h
    rw [runDetect_cons]
    dsimp only
    have hlen : (dequeAppend d.window_size d.data_window x).length
        < d.window_size := by
      rw [dequeAppend_length]; omega
    rw [detect_fst_warmup d x hlen, ih _ ?side, List.length_cons,
      List.replicate_succ]
    case side =>
      rw [detect_snd]
      dsimp only
      rw [dequeAppend_length]
      omega

/-- With a window size of one the freshly appended sample is always the whole
window, whose standard deviation is zero, so `detect` returns `False`. -/
theorem detect_fst_window_one (d : ZScoreAnomalyDetector) (x : ℝ)
    (hW : d.window_size = 1) : (detect d x).1 = false := by
  have hpush : dequeAppend d.window_size d.data_window x = [x] := by
    unfold dequeAppend
    rw [hW, show d.data_window.length + 1 - 1 = d.data_window.length by omega,
      List.drop_append_of_le_length le_rfl, List.drop_length, List.nil_append]
  apply detect_fst_zero_std
  · rw [hpush, hW]
    simp
  · rw [hpush]
    exact npStd_replicate 1 x

/-- Claim C1: with window size 5 and threshold 3.0, five calls of `detect`
with sample 1.0 followed by a sixth call with sample 10.0 are claimed to
return `true` on the sixth call (this is also what the repository's test
`test_detects_anomaly_in_spike` asserts).  The code disagrees: after the
sixth append the window is `[1, 1, 1, 1, 10]`, whose mean is `2.8` and
population standard deviation `3.6` — the just-appended spike inflates the
deviation — so the z-score of the spike is exactly `2.0`, which does not
exceed 3.0, and the sixth call returns `False`.  This theorem evaluates the
code at that failing input: all six calls return `False`. -/
theorem claim_C1_spike_sixth_call_false :
    (runDetect ⟨5, 3, []⟩ [1, 1, 1, 1, 1, 10]).1 =
      [false, false, false, false, false, false] := by
  have e1 : detect ⟨5, 3, []⟩ 1 = (false, ⟨5, 3, [1]⟩) :=
    Prod.ext (detect_fst_warmup _ _ (by decide)) (detect_snd _ _)
  have e2 : detect ⟨5, 3, [1]⟩ 1 = (false, ⟨5, 3, [1, 1]⟩) :=
    Prod.ext (detect_fst_warmup _ _ (by decide)) (detect_snd _ _)
  have e3 : detect ⟨5, 3, [1, 1]⟩ 1 = (false, ⟨5, 3, [1, 1, 1]⟩) :=
    Prod.ext (detect_fst_warmup _ _ (by decide)) (detect_snd _ _)
  have e4 : detect ⟨5, 3, [1, 1, 1]⟩ 1 = (false, ⟨5, 3, [1, 1, 1, 1]⟩) :=
    Prod.ext (detect_fst_warmup _ _ (by decide)) (detect_snd _ _)
  have e5 : detect ⟨5, 3, [1, 1, 1, 1]⟩ 1 = (false, ⟨5, 3, [1, 1, 1, 1, 1]⟩) :=
    Prod.ext
      (detect_fst_zero_std _ _ (by decide) (npStd_replicate 5 1))
      (detect_snd _ _)
  have e6 : detect ⟨5, 3, [1, 1, 1, 1, 1]⟩ 10 =
      (false, ⟨5, 3, [1, 1, 1, 1, 10]⟩) := by
    refine Prod.ext ?fst (detect_snd _ _)
    rw [detect_fst_live _ _ (by decide) ?hne]
    case hne =>
      rw [show dequeAppend 5 [1, 1, 1, 1, 1] (10 : ℝ) = [1, 1, 1, 1, 10]
          from rfl, npStd_spike]
      norm_num
    rw [show dequeAppend 5 [1, 1, 1, 1, 1] (10 : ℝ) = [1, 1, 1, 1, 10]
        from rfl, npMean_spike, npStd_spike]
    dsimp only
    rw [decide_eq_false_iff_not]
    norm_num
  rw [runDetect_cons, e1]
  dsimp only
  rw [runDetect_cons, e2]
  dsimp only
  rw [runDetect_cons, e3]
  dsimp only
  rw [runDetect_cons, e4]
  dsimp only
  rw [runDetect_cons, e5]
  dsimp only
  rw [runDetect_cons, e6]
  rfl

/-- Feeding a constant `c` into a window already consisting of `window_size`
copies of `c` returns `False` (zero variance) and leaves the window
unchanged. -/
theorem detect_const_step (W : ℕ) (t c : ℝ) :
    detect ⟨W, t, List.replicate W c⟩ c = (false, ⟨W, t, List.replicate W c⟩) := by
  have hpush : dequeAppend W (List.replicate W c) c = List.replicate W c := by
    unfold dequeAppend
    rw [List.length_replicate, ← List.replicate_succ',
      show W + 1 - W = 1 by omega, List.replicate_succ, List.drop_succ_cons,
      List.drop_zero]
  refine Prod.ext ?fst ((detect_snd _ _).trans (by rw [hpush]))
  apply detect_fst_zero_std
  · rw [hpush, List.length_replicate]
    exact lt_irrefl W
  · rw [hpush]
    exact npStd_replicate W c

/-- Ten constant samples with window size 5: every call returns `False`
(warm-up for the first four, zero variance afterwards). -/
theorem runDetect_const_ten :
    (runDetect ⟨5, 3, []⟩ (List.replicate 10 1)).1 = List.replicate 10 false := by
  have e1 : detect ⟨5, 3, []⟩ 1 = (false, ⟨5, 3, [1]⟩) :=
    Prod.ext (detect_fst_warmup _ _ (by decide)) (detect_snd _ _)
  have e2 : detect ⟨5, 3, [1]⟩ 1 = (false, ⟨5, 3, [1, 1]⟩) :=
    Prod.ext (detect_fst_warmup _ _ (by decide)) (detect_snd _ _)
  have e3 : detect ⟨5, 3, [1, 1]⟩ 1 = (false, ⟨5, 3, [1, 1, 1]⟩) :=
    Prod.ext (detect_fst_warmup _ _ (by decide)) (detect_snd _ _)
  have e4 : detect ⟨5, 3, [1, 1, 1]⟩ 1 = (false, ⟨5, 3, [1, 1, 1, 1]⟩) :=
    Prod.ext (detect_fst_warmup _ _ (by decide)) (detect_snd _ _)
  have e5 : detect ⟨5, 3, [1, 1, 1, 1]⟩ 1 = (false, ⟨5, 3, [1, 1, 1, 1, 1]⟩) :=
    Prod.ext
      (detect_fst_zero_std _ _ (by decide) (npStd_replicate 5 1))
      (detect_snd _ _)
  have ec : detect ⟨5, 3, [1, 1, 1, 1, 1]⟩ 1 =
      (false, ⟨5, 3, [1, 1, 1, 1, 1]⟩) := detect_const_step 5 3 1
  show (runDetect ⟨5, 3, []⟩ [1, 1, 1, 1, 1, 1, 1, 1, 1, 1]).1 =
    [false, false, false, false, false, false, false, false, false, false]
  rw [runDetect_cons, e1]
  dsimp only
  rw [runDetect_cons, e2]
  dsimp only
  rw [runDetect_cons, e3]
  dsimp only
  rw [runDetect_cons, e4]
  dsimp only
  rw [runDetect_cons, e5]
  dsimp only
  rw [runDetect_cons, ec]
  dsimp only
  rw [runDetect_cons, ec]
  dsimp only
  rw [runDetect_cons, ec]
  dsimp only
  rw [runDetect_cons, ec]
  dsimp only
  rw [runDetect_cons, ec]
  rfl

/-- With window size 1, every call of `detect` returns `False`, whatever the
sample and whatever the current window. -/
theorem runDetect_fst_window_one (xs : List ℝ) :
    ∀ d : ZScoreAnomalyDetector, d.window_size = 1 →
      (runDetect d xs).1 = List.replicate xs.length false := by
  induction xs with
  | nil => intro d _; rfl
  | cons x rest ih =>
    intro d h
    rw [runDetect_cons]
    dsimp only
    rw [detect_fst_window_one d x h, ih _ (by rw [detect_snd]; exact h),
      List.length_cons, List.replicate_succ]

/-- Running a concatenated sample stream is running the two parts in
sequence, the second from the state the first left behind. -/
theorem runDetect_append (d : ZScoreAnomalyDetector) (xs ys : List ℝ) :
    runDetect d (xs ++ ys) =
      ((runDetect d xs).1 ++ (runDetect (runDetect d xs).2 ys).1,
        (runDetect (runDetect d xs).2 ys).2) := by
  induction xs generalizing d with
  | nil => rfl
  | cons x rest ih =>
    rw [List.cons_append, runDetect_cons, runDetect_cons]
    dsimp only
    rw [ih]
    rfl

/-- A single call on the spike window used by the repository's test: with
threshold 3, window `[1, 1, 1, 1]` and sample 10 the z-score is exactly 2,
so the call returns `False`. -/
theorem detect_fst_spike_window :
    (detect ⟨5, 3, [1, 1, 1, 1]⟩ (10 : ℝ)).1 = false := by
  rw [detect_fst_live _ _ (by decide) (by
    rw [show dequeAppend 5 [1, 1, 1, 1] (10 : ℝ) = [1, 1, 1, 1, 10] from rfl,
      npStd_spike]
    norm_num)]
  rw [show dequeAppend 5 [1, 1, 1, 1] (10 : ℝ) = [1, 1, 1, 1, 10] from rfl,
    npMean_spike, npStd_spike]
  dsimp only
  rw [decide_eq_false_iff_not]
  norm_num

end ZScoreAnomalyDetector

/-- Division on extended values cannot fault when the divisor fails the
IEEE `== 0` test. -/
theorem divE_ok (a b : ERe) (hb : beqZeroE b = false) :
    ∃ r, divE a b = Except.ok r := by
  cases b with
  | fin q =>
    have hq : q ≠ 0 := by
      intro h
      subst h
      simp [beqZeroE] at hb
    cases a <;> simp only [divE, if_neg hq] <;> exact ⟨_, rfl⟩
  | pinf => cases a <;> exact ⟨_, rfl⟩
  | ninf => cases a <;> exact ⟨_, rfl⟩
  | nan => cases a <;> exact ⟨_, rfl⟩

/-! ## Claim theorems -/

namespace ZScoreAnomalyDetector

/-- Claim C2, counterexample: the claim says `new(0, 3.0)` and `new(5, 0.0)`
fail with `InvalidConfig`; in the code both constructions succeed — the
constructor stores its arguments without any validation. -/
theorem claim_C2_counterexample :
    init 0 3 = Except.ok ⟨0, 3, []⟩ ∧ init 5 0 = Except.ok ⟨5, 0, []⟩ :=
  ⟨rfl, rfl⟩

/-- Claim C2, amended: construction performs no validation and never fails
with `InvalidConfig`; it succeeds for every non-negative `window_size`
(zero included) and every `threshold` (zero and negatives included), in
particular for `new(0, 3.0)`, `new(5, 0.0)` and `new(5, 3.0)`.  The only
possible construction failure is the `ValueError` that `deque` raises for a
negative maxlen. -/
theorem claim_C2_construction_never_validates :
    (∀ (w : ℤ) (t : ℝ), init w t ≠ Except.error InitError.invalidConfig) ∧
    (∀ (w : ℤ) (t : ℝ), 0 ≤ w → init w t = Except.ok ⟨w.toNat, t, []⟩) := by
  constructor
  · intro w t
    unfold init
    split
    · simp
    · simp
  · intro w t hw
    unfold init
    rw [if_neg (by omega)]

/-- Claim C2 witness: `new(5, 3.0)` succeeds, by the amended theorem. -/
theorem claim_C2_witness :
    (0 : ℤ) ≤ 5 ∧ init 5 3 = Except.ok ⟨(5 : ℤ).toNat, 3, []⟩ :=
  ⟨by norm_num, claim_C2_construction_never_validates.2 5 3 (by norm_num)⟩

/-- Claim C3: whenever the window is full after appending the new sample and
its standard deviation is nonzero, `detect` returns `true` exactly when the
absolute z-score — the sample minus the arithmetic mean of all `window_size`
elements currently in the window (the just-appended sample included),
divided by the population standard deviation of those elements (divisor the
window size) — exceeds the threshold. -/
theorem claim_C3_full_window_zscore (d : ZScoreAnomalyDetector) (x : ℝ)
    (hfull :
      (dequeAppend d.window_size d.data_window x).length = d.window_size)
    (hstd : npStd (dequeAppend d.window_size d.data_window x) ≠ 0) :
    ((detect d x).1 = true ↔
      |(x - npMean (dequeAppend d.window_size d.data_window x)) /
          npStd (dequeAppend d.window_size d.data_window x)| > d.threshold) := by
  rw [detect_fst_live d x (by omega) hstd]
  exact decide_eq_true_iff

/-- Claim C3 witness: instantiated at window size 5, threshold 3, window
`[1, 1, 1, 1]` and sample 10. -/
theorem claim_C3_witness :
    (dequeAppend 5 [1, 1, 1, 1] (10 : ℝ)).length = 5 ∧
    npStd (dequeAppend 5 [1, 1, 1, 1] (10 : ℝ)) ≠ 0 ∧
    ((detect ⟨5, 3, [1, 1, 1, 1]⟩ 10).1 = true ↔
      |((10 : ℝ) - npMean (dequeAppend 5 [1, 1, 1, 1] (10 : ℝ))) /
          npStd (dequeAppend 5 [1, 1, 1, 1] (10 : ℝ))| > 3) := by
  have hstd : npStd (dequeAppend 5 [1, 1, 1, 1] (10 : ℝ)) ≠ 0 := by
    rw [show dequeAppend 5 [1, 1, 1, 1] (10 : ℝ) = [1, 1, 1, 1, 10] from rfl,
      npStd_spike]
    norm_num
  exact ⟨rfl, hstd,
    claim_C3_full_window_zscore ⟨5, 3, [1, 1, 1, 1]⟩ 10 rfl hstd⟩

/-- Claim C4: for every configuration with window size `W` and every sample
sequence, the first `W - 1` outputs of a fresh detector (all of them, when
the sequence is shorter than that) are `false`, regardless of the sample
values supplied. -/
theorem claim_C4_warmup_returns_false (W : ℕ) (t : ℝ) (xs : List ℝ) :
    (runDetect ⟨W, t, []⟩ xs).1.take (W - 1) =
      List.replicate (min (W - 1) xs.length) false := by
  rcases Nat.eq_zero_or_pos W with hW | hW
  · subst hW
    simp
  · set k := min (W - 1) xs.length with hk
    have hxs : xs = xs.take k ++ xs.drop k := (List.take_append_drop k xs).symm
    rw [hxs, runDetect_append]
    dsimp only
    have hA : (runDetect ⟨W, t, []⟩ (xs.take k)).1
        = List.replicate (xs.take k).length false :=
      runDetect_fst_warmup _ _
        (show ([] : List ℝ).length + (xs.take k).length < W by
          simp only [List.length_nil, List.length_take]
          omega)
    rw [hA, List.length_take, List.take_append_eq_append_take,
      show min k xs.length = k by omega, List.length_replicate,
      List.take_of_length_le (by rw [List.length_replicate]; omega)]
    rcases le_or_lt (W - 1) xs.length with hcase | hcase
    · rw [show W - 1 - k = 0 by omega, List.take_zero, List.append_nil]
    · rw [show xs.drop k = [] from List.drop_eq_nil_iff.mpr (by omega)]
      simp [runDetect_nil]

/-- Claim C5: appending the sample (evicting the oldest element once at
capacity) is an unconditional side effect of every call, and after running
any sample sequence from a fresh detector the window holds exactly the last
`min (number of calls) window_size` samples in arrival order — in
particular, after at least `window_size` calls, exactly the `window_size`
most recently supplied samples. -/
theorem claim_C5_window_invariant :
    (∀ (d : ZScoreAnomalyDetector) (x : ℝ),
      (detect d x).2.data_window = dequeAppend d.window_size d.data_window x) ∧
    (∀ (W : ℕ) (t : ℝ) (xs : List ℝ),
      (runDetect ⟨W, t, []⟩ xs).2.data_window = xs.drop (xs.length - W) ∧
      ((runDetect ⟨W, t, []⟩ xs).2.data_window).length = min xs.length W) := by
  constructor
  · intro d x
    rw [detect_snd]
  · intro W t xs
    have hwin : (runDetect ⟨W, t, []⟩ xs).2.data_window
        = xs.drop (xs.length - W) := by
      rw [runDetect_snd]
      dsimp only
      rw [foldl_dequeAppend W xs [] (by simp)]
      simp
    refine ⟨hwin, ?_⟩
    rw [hwin, List.length_drop]
    omega

/-- Claim C6: a full window with zero standard deviation yields `false`
without any fault, and in particular ten calls with the constant sample 1.0
at window size 5, threshold 3.0 all return `false`. -/
theorem claim_C6_zero_variance_safe :
    (∀ (d : ZScoreAnomalyDetector) (x : ℝ),
      ¬ (dequeAppend d.window_size d.data_window x).length < d.window_size →
      npStd (dequeAppend d.window_size d.data_window x) = 0 →
      (detect d x).1 = false) ∧
    (runDetect ⟨5, 3, []⟩ (List.replicate 10 1)).1 =
      List.replicate 10 false :=
  ⟨detect_fst_zero_std, runDetect_const_ten⟩

/-- Claim C6 witness: the sixth constant call — full window `[1,1,1,1,1]`,
sample 1 — returns `false` by the zero-variance branch. -/
theorem claim_C6_witness :
    (¬ (dequeAppend 5 [1, 1, 1, 1, 1] (1 : ℝ)).length < 5) ∧
    npStd (dequeAppend 5 [1, 1, 1, 1, 1] (1 : ℝ)) = 0 ∧
    (detect ⟨5, 3, [1, 1, 1, 1, 1]⟩ 1).1 = false :=
  ⟨by decide, npStd_replicate 5 1,
    claim_C6_zero_variance_safe.1 ⟨5, 3, [1, 1, 1, 1, 1]⟩ 1 (by decide)
      (npStd_replicate 5 1)⟩

/-- Claim C7: with the window history and sample fixed, if `detect`
classifies the sample as `false` at threshold `t` it also classifies it as
`false` at every threshold `s ≥ t` — raising the threshold never turns a
`false` classification into `true`. -/
theorem claim_C7_threshold_monotone (W : ℕ) (wl : List ℝ) (x t s : ℝ)
    (hts : t ≤ s) (hf : (detect ⟨W, t, wl⟩ x).1 = false) :
    (detect ⟨W, s, wl⟩ x).1 = false := by
  by_cases hlen : (dequeAppend W wl x).length < W
  · exact detect_fst_warmup ⟨W, s, wl⟩ x hlen
  · by_cases h0 : npStd (dequeAppend W wl x) = 0
    · exact detect_fst_zero_std ⟨W, s, wl⟩ x hlen h0
    · rw [detect_fst_live ⟨W, t, wl⟩ x hlen h0] at hf
      rw [detect_fst_live ⟨W, s, wl⟩ x hlen h0]
      rw [decide_eq_false_iff_not] at hf ⊢
      intro hgt
      exact hf (lt_of_le_of_lt hts hgt)

/-- Claim C7 witness: the spike window `[1,1,1,1]` with sample 10 is
classified `false` at threshold 3, hence also at threshold 4. -/
theorem claim_C7_witness :
    (3 : ℝ) ≤ 4 ∧ (detect ⟨5, 3, [1, 1, 1, 1]⟩ (10 : ℝ)).1 = false ∧
    (detect ⟨5, 4, [1, 1, 1, 1]⟩ (10 : ℝ)).1 = false :=
  ⟨by norm_num, detect_fst_spike_window,
    claim_C7_threshold_monotone 5 [1, 1, 1, 1] 10 3 4 (by norm_num)
      detect_fst_spike_window⟩

/-- Claim C8: `detect` is a deterministic function of configuration and
input history — two freshly constructed detectors with identical window
size and threshold produce identical boolean output sequences on any sample
sequence. -/
theorem claim_C8_deterministic (d1 d2 : ZScoreAnomalyDetector)
    (xs : List ℝ) (hW : d1.window_size = d2.window_size)
    (ht : d1.threshold = d2.threshold) (h1 : d1.data_window = [])
    (h2 : d2.data_window = []) :
    (runDetect d1 xs).1 = (runDetect d2 xs).1 := by
  obtain ⟨W1, t1, w1⟩ := d1
  obtain ⟨W2, t2, w2⟩ := d2
  dsimp only at hW ht h1 h2
  subst hW
  subst ht
  subst h1
  subst h2
  rfl

/-- Claim C8 witness: two fresh detectors with window size 5, threshold 3,
on the sample sequence `[1, 2]`. -/
theorem claim_C8_witness :
    (runDetect ⟨5, 3, []⟩ [1, 2]).1 = (runDetect ⟨5, 3, []⟩ [1, 2]).1 :=
  claim_C8_deterministic ⟨5, 3, []⟩ ⟨5, 3, []⟩ [1, 2] rfl rfl rfl rfl

/-- Claim C10: a detector with window size 1 and positive threshold never
flags any sample: the one-element window always has zero standard
deviation, so the zero-variance branch always returns `false`. -/
theorem claim_C10_window_one_never_flags (t : ℝ) (ht : 0 < t)
    (xs : List ℝ) :
    (runDetect ⟨1, t, []⟩ xs).1 = List.replicate xs.length false :=
  runDetect_fst_window_one xs ⟨1, t, []⟩ rfl

/-- Claim C10 witness: window size 1, threshold 3, three varied samples. -/
theorem claim_C10_witness :
    (0 : ℝ) < 3 ∧
    (runDetect ⟨1, 3, []⟩ [1, 50, 2]).1 =
      List.replicate ([1, 50, 2] : List ℝ).length false :=
  ⟨by norm_num, claim_C10_window_one_never_flags 3 (by norm_num) [1, 50, 2]⟩

end ZScoreAnomalyDetector

/-- Claim C9: over the extended value domain that includes NaN and both
infinities, `detect` never faults — every call completes with a boolean
classification (and the updated state).  The zero-variance guard is what
protects the z-score division: its divisor can never be finite zero. -/
theorem claim_C9_no_fault (d : DetectorE) (x : ERe) :
    ∃ r, detectE d x = Except.ok r := by
  unfold detectE
  dsimp only
  split
  · exact ⟨_, rfl⟩
  · split
    · exact ⟨_, rfl⟩
    · rename_i hbeq
      obtain ⟨r, hr⟩ :=
        divE_ok
          (subE x (npMeanE (dequeAppendE d.window_size d.data_window x)))
          (npStdE (dequeAppendE d.window_size d.data_window x))
          (Bool.eq_false_iff.mpr hbeq)
      rw [hr]
      exact ⟨_, rfl⟩

end AnomalyDetection
